import Mathlib

/-!
Verification of the Pokedex data-fetch-and-pagination pipeline.

The definitions below are a shallow embedding of the behavioral core of the
repository: the list screens (src/unnamed/part_001, src/unnamed/part_002,
src/pokedex/app/index.tsx) and the detail screen
(src/pokedex/app/details.tsx).  JavaScript numbers that only ever hold
integers are modeled as Int or Nat; nullable values as Option; JavaScript
strings whose characters matter are modeled as lists of characters; network
responses are supplied explicitly as Except values, where an error stands
for a rejected request, a thrown non-success status check, or an unusable
JSON shape.
-/

/-! ## Data model -/

/-- A nested named resource pointer, the `{name, url}` shape used by the
upstream API for types, stats, abilities and habitats. -/
structure NamedRef where
  name : String
  url : String
deriving DecidableEq

/-- One entry of the list-endpoint response: `data.results` elements. -/
structure EntityReference where
  name : String
  url : String
deriving DecidableEq

/-- One entry of the detail response `types` array. -/
structure PokemonTypeEntry where
  slot : Int
  type : NamedRef
deriving DecidableEq

/-- A front-image holder: the nested objects with a `front_default` field
(the `official-artwork` and `dream_world` sprite groups). -/
structure FrontImage where
  front_default : Option String
deriving DecidableEq

/-- The `other` sprite group; `officialArtwork` models the JavaScript key
`"official-artwork"`. -/
structure SpritesOther where
  officialArtwork : FrontImage
  dream_world : FrontImage
deriving DecidableEq

/-- The sprites object of a detail response. -/
structure PokemonSprites where
  front_default : Option String
  front_shiny : Option String
  back_default : Option String
  back_shiny : Option String
  other : SpritesOther
deriving DecidableEq

/-- The part of a raw detail response read by the list-screen mapper. -/
structure PokemonDetail where
  id : Int
  name : String
  sprites : PokemonSprites
  types : List PokemonTypeEntry
deriving DecidableEq

/-- The record the list-screen mapper builds per reference
(`{id, name, image, types}`); `image` is nullable at runtime even though the
TypeScript interface declares a plain string. -/
structure EntitySummary where
  id : Int
  name : String
  image : Option String
  types : List String
deriving DecidableEq

/-- One entry of the detail response `stats` array. -/
structure PokemonStat where
  base_stat : Int
  effort : Int
  stat : NamedRef
deriving DecidableEq

/-- One entry of the detail response `abilities` array. -/
structure PokemonAbility where
  ability : NamedRef
  is_hidden : Bool
  slot : Int
deriving DecidableEq

/-- The full detail record used by the detail screen (details.tsx). -/
structure Pokemon where
  id : Int
  name : String
  height : Int
  weight : Int
  base_experience : Int
  types : List PokemonTypeEntry
  stats : List PokemonStat
  abilities : List PokemonAbility
  sprites : PokemonSprites
  location_area_encounters : String
deriving DecidableEq

/-- The language tag of a flavor-text entry. -/
structure FlavorLanguage where
  name : String
deriving DecidableEq

/-- One localized description; the string is modeled as a list of
characters so that the cleaning step is visible character by character. -/
structure FlavorTextEntry where
  flavor_text : List Char
  language : FlavorLanguage
deriving DecidableEq

/-- The species response used by the detail screen. -/
structure PokemonSpecies where
  habitat : Option NamedRef
  flavor_text_entries : List FlavorTextEntry
deriving DecidableEq

/-! ## Pagination (part_001 lines 435-505, part_002 lines 835-884) -/

/-- Page size constant `const ITEMS_PER_PAGE = 10`. -/
def ITEMS_PER_PAGE : Nat := 10

/-- `Math.ceil(allPokemons.length / ITEMS_PER_PAGE)`, exact ceiling
division on the natural length. -/
def totalPages (allPokemons : List EntitySummary) : Nat :=
  (allPokemons.length + ITEMS_PER_PAGE - 1) / ITEMS_PER_PAGE

/-- JavaScript `Array.prototype.slice(start, end)` for the non-negative
bounds the screens use (the app never passes a negative index, so the
negative-index wrap-around of JavaScript is not modeled). -/
def jsSlice (l : List EntitySummary) (s e : Int) : List EntitySummary :=
  (l.drop s.toNat).take (e - s).toNat

/-- The derived visible page:
`allPokemons.slice(startIndex, endIndex)` with
`startIndex = (currentPage - 1) * ITEMS_PER_PAGE` and
`endIndex = startIndex + ITEMS_PER_PAGE`. -/
def currentPokemons (allPokemons : List EntitySummary) (currentPage : Int) :
    List EntitySummary :=
  jsSlice allPokemons ((currentPage - 1) * (ITEMS_PER_PAGE : Int))
    ((currentPage - 1) * (ITEMS_PER_PAGE : Int) + (ITEMS_PER_PAGE : Int))

/-- The page transition of part_001:
`if (newPage < 1 || newPage > totalPages) return;` then set the page. -/
def changePage (allPokemons : List EntitySummary) (currentPage newPage : Int) :
    Int :=
  if newPage < 1 ∨ newPage > (totalPages allPokemons : Int) then currentPage
  else newPage

/-- The guarded next-page transition of part_002. -/
def goToNextPage (allPokemons : List EntitySummary) (currentPage : Int) : Int :=
  if currentPage < (totalPages allPokemons : Int) then currentPage + 1
  else currentPage

/-- The guarded previous-page transition of part_002. -/
def goToPrevPage (allPokemons : List EntitySummary) (currentPage : Int) : Int :=
  if currentPage > 1 then currentPage - 1 else currentPage

/-! ## Stat colors (details.tsx lines 337-343) -/

/-- `getStatColor` from details.tsx: the threshold-based severity color of a
stat value. -/
def getStatColor (value : Int) : String :=
  if value ≥ 100 then "#4CAF50"
  else if value ≥ 80 then "#8BC34A"
  else if value ≥ 60 then "#FFC107"
  else if value ≥ 40 then "#FF9800"
  else "#F44336"

/-- Severity rank of the five stat colors, red lowest to green highest,
used to state monotonicity of `getStatColor`. -/
def statColorRank (c : String) : Nat :=
  if c = "#F44336" then 0
  else if c = "#FF9800" then 1
  else if c = "#FFC107" then 2
  else if c = "#8BC34A" then 3
  else 4

/-- A throwaway concrete summary record used by concrete instantiations. -/
def exSummary : EntitySummary :=
  { id := 1, name := "bulbasaur", image := some "img.png", types := ["grass"] }

/-- A concrete collection of 25 summaries (the example of the spec:
L = 25, P = 10). -/
def exList25 : List EntitySummary := List.replicate 25 exSummary

/-- Claim C3 counterexample: the code computes
`Math.ceil(length / ITEMS_PER_PAGE)` with no lower bound of 1, so an empty
collection yields 0 total pages, not 1 as the claim states. -/
theorem c3_counterexample : totalPages [] = 0 ∧ totalPages [] ≠ 1 := by
  decide

/-- Claim C3 (amended): for every collection, `totalPages` is the exact
ceiling of length / ITEMS_PER_PAGE, characterized as the least number of
pages covering the collection; an empty collection yields 0 total pages
(not 1) and an empty visible slice. -/
theorem c3_total_pages (l : List EntitySummary) :
    l.length ≤ totalPages l * ITEMS_PER_PAGE ∧
    (∀ m : Nat, l.length ≤ m * ITEMS_PER_PAGE → totalPages l ≤ m) ∧
    (l = [] → totalPages l = 0 ∧ currentPokemons l 1 = []) := by
  refine ⟨?_, ?_, ?_⟩
  · simp only [totalPages, ITEMS_PER_PAGE]
    omega
  · intro m hm
    simp only [totalPages, ITEMS_PER_PAGE] at *
    omega
  · rintro rfl
    exact ⟨by decide, by decide⟩

/-- Claim C3 witness: concrete instantiation at a collection of length 25
and at the empty collection. -/
theorem c3_total_pages_witness :
    exList25.length ≤ totalPages exList25 * ITEMS_PER_PAGE ∧
    totalPages exList25 ≤ 3 ∧
    (totalPages [] = 0 ∧ currentPokemons [] 1 = []) :=
  ⟨(c3_total_pages exList25).1,
   (c3_total_pages exList25).2.1 3 (by decide),
   (c3_total_pages []).2.2 rfl⟩

/-- Claim C4: a transition to a target page below 1 or above the total page
count is a no-op; a transition to a target inside [1, totalPages] replaces
the current page unconditionally; and every transition (changePage of
part_001, goToNextPage and goToPrevPage of part_002) keeps a current page
that is inside [1, totalPages] inside that interval. -/
theorem c4_page_transition_bounds (l : List EntitySummary)
    (cur target : Int) :
    ((target < 1 ∨ target > (totalPages l : Int)) →
      changePage l cur target = cur) ∧
    (1 ≤ target → target ≤ (totalPages l : Int) →
      changePage l cur target = target) ∧
    (1 ≤ cur → cur ≤ (totalPages l : Int) →
      (1 ≤ changePage l cur target ∧
        changePage l cur target ≤ (totalPages l : Int)) ∧
      (1 ≤ goToNextPage l cur ∧ goToNextPage l cur ≤ (totalPages l : Int)) ∧
      (1 ≤ goToPrevPage l cur ∧ goToPrevPage l cur ≤ (totalPages l : Int))) := by
  refine ⟨?_, ?_, ?_⟩
  · intro h
    simp only [changePage, if_pos h]
  · intro h1 h2
    simp only [changePage]
    split_ifs with h
    · omega
    · rfl
  · intro h1 h2
    refine ⟨?_, ?_, ?_⟩ <;>
      simp only [changePage, goToNextPage, goToPrevPage] <;>
        split_ifs <;> omega

/-- Claim C4 witness: with 25 items (3 pages), a request for page 4 from
page 2 is rejected, a request for page 3 is honored, and a rejected request
for page 0 keeps the page inside bounds. -/
theorem c4_page_transition_bounds_witness :
    changePage exList25 2 4 = 2 ∧
    changePage exList25 2 3 = 3 ∧
    (1 ≤ changePage exList25 2 0 ∧
      changePage exList25 2 0 ≤ (totalPages exList25 : Int)) :=
  ⟨(c4_page_transition_bounds exList25 2 4).1 (by decide),
   (c4_page_transition_bounds exList25 2 3).2.1 (by decide) (by decide),
   ((c4_page_transition_bounds exList25 2 0).2.2 (by decide) (by decide)).1⟩

/-- Claim C7: for every collection and every page number p at least 1, the
visible slice is the contiguous sub-sequence of the collection that starts
at index (p-1)*ITEMS_PER_PAGE and has length at most ITEMS_PER_PAGE, in
collection order. -/
theorem c7_visible_slice (l : List EntitySummary) (p : Int) (hp : 1 ≤ p) :
    (currentPokemons l p).length ≤ ITEMS_PER_PAGE ∧
    ∀ i : Nat, (currentPokemons l p)[i]? =
      if i < ITEMS_PER_PAGE then
        l[(((p - 1) * (ITEMS_PER_PAGE : Int)).toNat + i)]?
      else none := by
  have hdiff : ((p - 1) * (ITEMS_PER_PAGE : Int) + (ITEMS_PER_PAGE : Int)
      - (p - 1) * (ITEMS_PER_PAGE : Int)).toNat = ITEMS_PER_PAGE := by
    omega
  constructor
  · simp only [currentPokemons, jsSlice, hdiff, List.length_take]
    omega
  · intro i
    simp only [currentPokemons, jsSlice, hdiff, List.getElem?_take,
      List.getElem?_drop]

/-- Claim C7 witness: page 3 of the 25-element example collection is the
slice of length 5 starting at index 20. -/
theorem c7_visible_slice_witness :
    (currentPokemons exList25 3).length ≤ ITEMS_PER_PAGE ∧
    (currentPokemons exList25 3)[0]? =
      (if (0 : Nat) < ITEMS_PER_PAGE then
        exList25[((((3 : Int) - 1) * (ITEMS_PER_PAGE : Int)).toNat + 0)]?
      else none) :=
  ⟨(c7_visible_slice exList25 3 (by decide)).1,
   (c7_visible_slice exList25 3 (by decide)).2 0⟩

/-- Claim C10: getStatColor is total and partitions the integers into the
five fixed colors exactly at the thresholds 40, 60, 80, 100, and its
severity rank is monotone in the stat value. -/
theorem c10_stat_color_total_monotone (v v1 v2 : Int) :
    (getStatColor v = "#4CAF50" ↔ 100 ≤ v) ∧
    (getStatColor v = "#8BC34A" ↔ 80 ≤ v ∧ v < 100) ∧
    (getStatColor v = "#FFC107" ↔ 60 ≤ v ∧ v < 80) ∧
    (getStatColor v = "#FF9800" ↔ 40 ≤ v ∧ v < 60) ∧
    (getStatColor v = "#F44336" ↔ v < 40) ∧
    (v1 ≤ v2 → statColorRank (getStatColor v1) ≤
      statColorRank (getStatColor v2)) := by
  have hrank : ∀ w : Int, statColorRank (getStatColor w) =
      if 100 ≤ w then 4 else if 80 ≤ w then 3 else if 60 ≤ w then 2
      else if 40 ≤ w then 1 else 0 := by
    intro w
    simp only [getStatColor, statColorRank, ge_iff_le]
    split_ifs <;> simp_all
  refine ⟨?_, ?_, ?_, ?_, ?_, ?_⟩
  · simp only [getStatColor, ge_iff_le]
    split_ifs <;> simp_all <;> omega
  · simp only [getStatColor, ge_iff_le]
    split_ifs <;> simp_all <;> omega
  · simp only [getStatColor, ge_iff_le]
    split_ifs <;> simp_all <;> omega
  · simp only [getStatColor, ge_iff_le]
    split_ifs <;> simp_all <;> omega
  · simp only [getStatColor, ge_iff_le]
    split_ifs <;> simp_all <;> omega
  · intro hle
    rw [hrank v1, hrank v2]
    split_ifs <;> omega

/-- Claim C10 witness: concrete evaluation of the partition at 85 and of
monotonicity at 35 and 100. -/
theorem c10_stat_color_witness :
    (getStatColor 85 = "#8BC34A" ↔ 80 ≤ (85 : Int) ∧ (85 : Int) < 100) ∧
    statColorRank (getStatColor 35) ≤ statColorRank (getStatColor 100) :=
  ⟨(c10_stat_color_total_monotone 85 0 0).2.1,
   (c10_stat_color_total_monotone 0 35 100).2.2.2.2.2 (by decide)⟩

/-! ## Flavor text (details.tsx lines 302-313) -/

/-- `getFlavorText` from details.tsx: return the empty description when no
species data is loaded; otherwise find the first flavor entry whose
language name is "en" and replace every form-feed character with a space
(`flavor_text.replace(/\f/g, " ")`); when there is no English entry the
description is empty. -/
def getFlavorText (species : Option PokemonSpecies) : List Char :=
  match species with
  | none => []
  | some sp =>
    match sp.flavor_text_entries.find? (fun e => e.language.name == "en") with
    | some entry =>
        entry.flavor_text.map (fun c => if c = '\x0c' then ' ' else c)
    | none => []

/-- A concrete English flavor entry whose text holds a form feed and a
literal newline. -/
def c5exEntry : FlavorTextEntry :=
  { flavor_text := ['a', '\x0c', 'b', '\x0a', 'c'],
    language := { name := "en" } }

/-- A concrete species record holding only `c5exEntry`. -/
def c5exSpecies : PokemonSpecies :=
  { habitat := none, flavor_text_entries := [c5exEntry] }

/-- Claim C5 counterexample: the code only replaces form feeds, so a
description holding a literal newline still holds it after cleaning, while
the form feed is gone. -/
theorem c5_counterexample :
    '\x0a' ∈ getFlavorText (some c5exSpecies) ∧
    '\x0c' ∉ getFlavorText (some c5exSpecies) := by
  decide

/-- Claim C5 (amended): the cleaned description contains no form-feed
character; every form feed of the source entry becomes a space at the same
position, every other character (including literal newlines, which are not
replaced) is preserved at its position, and the length is unchanged. -/
theorem c5_flavor_text_cleaning (sp : PokemonSpecies)
    (entry : FlavorTextEntry)
    (hfind : sp.flavor_text_entries.find? (fun e => e.language.name == "en")
      = some entry) :
    '\x0c' ∉ getFlavorText (some sp) ∧
    (getFlavorText (some sp)).length = entry.flavor_text.length ∧
    (∀ i : Nat, ∀ c : Char, entry.flavor_text[i]? = some c → c ≠ '\x0c' →
      (getFlavorText (some sp))[i]? = some c) ∧
    (∀ i : Nat, entry.flavor_text[i]? = some '\x0c' →
      (getFlavorText (some sp))[i]? = some ' ') := by
  have hdef : getFlavorText (some sp) =
      entry.flavor_text.map (fun c => if c = '\x0c' then ' ' else c) := by
    simp only [getFlavorText, hfind]
  refine ⟨?_, ?_, ?_, ?_⟩
  · rw [hdef]
    simp only [List.mem_map]
    rintro ⟨c, _, heq⟩
    by_cases hc : c = '\x0c' <;> simp [hc] at heq
  · rw [hdef, List.length_map]
  · intro i c hi hc
    rw [hdef, List.getElem?_map, hi]
    simp [hc]
  · intro i hi
    rw [hdef, List.getElem?_map, hi]
    simp

/-- Claim C5 witness: evaluation of the cleaning facts on the concrete
species record. -/
theorem c5_flavor_text_cleaning_witness :
    '\x0c' ∉ getFlavorText (some c5exSpecies) ∧
    (getFlavorText (some c5exSpecies))[1]? = some ' ' :=
  ⟨(c5_flavor_text_cleaning c5exSpecies c5exEntry rfl).1,
   (c5_flavor_text_cleaning c5exSpecies c5exEntry rfl).2.2.2 1 rfl⟩

/-! ## Image selection (part_001 lines 451-464, details.tsx lines 405-411) -/

/-- JavaScript `a || b` on nullable strings: null and the empty string are
falsy, so the right operand is taken exactly in those cases. -/
def jsOrStr (a b : Option String) : Option String :=
  match a with
  | some s => if s = "" then b else some s
  | none => b

/-- The image selection of the list-screen mapper (part_001, part_002):
`data.sprites.other["official-artwork"].front_default ||
data.sprites.front_default`. -/
def selectImage (s : PokemonSprites) : Option String :=
  jsOrStr s.other.officialArtwork.front_default s.front_default

/-- The image URI used by the detail screen (details.tsx):
`sprites.other["official-artwork"].front_default ||
sprites.front_default || ""`. -/
def detailImageUri (s : PokemonSprites) : String :=
  match jsOrStr s.other.officialArtwork.front_default s.front_default with
  | some str => if str = "" then "" else str
  | none => ""

/-- The per-reference mapping inside fetchPokemons (part_001 lines
455-462): build the summary record from the parsed detail response. -/
def mapDetail (d : PokemonDetail) : EntitySummary :=
  { id := d.id
    name := d.name
    image := selectImage d.sprites
    types := d.types.map (fun t => t.type.name) }

/-- A sprites record with every image absent. -/
def c6exSpritesNone : PokemonSprites :=
  { front_default := none, front_shiny := none, back_default := none,
    back_shiny := none,
    other := { officialArtwork := { front_default := none },
               dream_world := { front_default := none } } }

/-- A sprites record with only the basic front sprite present. -/
def c6exSpritesBasic : PokemonSprites :=
  { front_default := some "basic.png", front_shiny := none,
    back_default := none, back_shiny := none,
    other := { officialArtwork := { front_default := none },
               dream_world := { front_default := none } } }

/-- A detail record with every image absent. -/
def c6exDetailNone : PokemonDetail :=
  { id := 1, name := "missingno", sprites := c6exSpritesNone, types := [] }

/-- A detail record with only the basic front sprite present. -/
def c6exDetailBasic : PokemonDetail :=
  { id := 1, name := "bulbasaur", sprites := c6exSpritesBasic,
    types := [{ slot := 1, type := { name := "grass", url := "u" } }] }

/-- Claim C6 counterexample: when both image sources are absent the
list-screen mapper stores null (there is no final fallback to the empty
string in part_001), so the image field is not an empty string. -/
theorem c6_counterexample :
    (mapDetail c6exDetailNone).image = none ∧
    (mapDetail c6exDetailNone).image ≠ some "" := by
  decide

/-- Claim C6 (amended): the list-screen mapper prefers the official-artwork
front image when it is present and truthy, falls back to the basic front
sprite when it is null or empty, and stores null (not an empty string, and
never an exception) when both are absent; only the detail screen's image
URI computation appends a final fallback to the empty string. -/
theorem c6_image_fallback (d : PokemonDetail) (u : String) :
    (d.sprites.other.officialArtwork.front_default = some u → u ≠ "" →
      (mapDetail d).image = some u) ∧
    ((d.sprites.other.officialArtwork.front_default = none ∨
      d.sprites.other.officialArtwork.front_default = some "") →
      (mapDetail d).image = d.sprites.front_default) ∧
    (d.sprites.other.officialArtwork.front_default = none →
      d.sprites.front_default = none → (mapDetail d).image = none) ∧
    (d.sprites.other.officialArtwork.front_default = none →
      d.sprites.front_default = none → detailImageUri d.sprites = "") := by
  refine ⟨?_, ?_, ?_, ?_⟩
  · intro h hu
    simp only [mapDetail, selectImage, jsOrStr, h, if_neg hu]
  · rintro (h | h) <;> simp [mapDetail, selectImage, jsOrStr, h]
  · intro h1 h2
    simp only [mapDetail, selectImage, jsOrStr, h1, h2]
  · intro h1 h2
    simp only [detailImageUri, jsOrStr, h1, h2]

/-- Claim C6 witness: with only the basic sprite present the mapper selects
it, and with both images absent the detail-screen URI is the empty
string. -/
theorem c6_image_fallback_witness :
    (mapDetail c6exDetailBasic).image = c6exDetailBasic.sprites.front_default ∧
    detailImageUri c6exDetailNone.sprites = "" :=
  ⟨(c6_image_fallback c6exDetailBasic "x").2.1 (Or.inl rfl),
   (c6_image_fallback c6exDetailNone "x").2.2.2 rfl rfl⟩

/-! ## Detail screen state (details.tsx lines 190-378) -/

/-- The four state hooks of the Details component; `loading` is initialized
to `true` (line 215). -/
structure DetailScreenState where
  pokemon : Option Pokemon
  species : Option PokemonSpecies
  loading : Bool
  error : Option String
deriving DecidableEq

/-- The state right after mount, before any effect runs. -/
def initialDetailState : DetailScreenState :=
  { pokemon := none, species := none, loading := true, error := none }

/-- One run of `fetchDetails` (details.tsx lines 245-291), with the two
network responses supplied explicitly: set loading and clear the error,
store the main record on success, then store the species record on
success; any failure is caught, stores the message, and the finally block
always stops the loading flag. -/
def fetchDetails (pokemonResp : Except String Pokemon)
    (speciesResp : Except String PokemonSpecies)
    (s : DetailScreenState) : DetailScreenState :=
  let s1 := { s with loading := true, error := none }
  match pokemonResp with
  | Except.error msg => { s1 with error := some msg, loading := false }
  | Except.ok pokemonData =>
    let s2 := { s1 with pokemon := some pokemonData }
    match speciesResp with
    | Except.error msg => { s2 with error := some msg, loading := false }
    | Except.ok speciesData =>
        { s2 with species := some speciesData, loading := false }

/-- The mount effect (details.tsx lines 231-236): fetch only when the name
parameter is present. Returns the next state together with the number of
fetchDetails calls made. -/
def mountDetails (paramsName : Option String)
    (pokemonResp : Except String Pokemon)
    (speciesResp : Except String PokemonSpecies)
    (s : DetailScreenState) : DetailScreenState × Nat :=
  match paramsName with
  | some _ => (fetchDetails pokemonResp speciesResp s, 1)
  | none => (s, 0)

/-- The three mutually exclusive renderings of the Details component. -/
inductive DetailsScreenView
  | loadingView
  | errorView
  | mainView
deriving DecidableEq

/-- The render dispatch of the Details component (details.tsx lines
353-378): the loading view wins, then the error view when an error is
stored or no record is loaded, else the main view. -/
def renderDetails (s : DetailScreenState) : DetailsScreenView :=
  if s.loading then DetailsScreenView.loadingView
  else if s.error.isSome || s.pokemon.isNone then DetailsScreenView.errorView
  else DetailsScreenView.mainView

/-- Claim C8 counterexample: activated without a name parameter the screen
makes no fetch, but because `loading` is initialized to `true` and nothing
clears it, the screen renders the loading view forever, not an idle
nothing-to-load view. -/
theorem c8_counterexample :
    (mountDetails none (Except.error "e") (Except.error "e")
      initialDetailState).2 = 0 ∧
    renderDetails (mountDetails none (Except.error "e") (Except.error "e")
      initialDetailState).1 = DetailsScreenView.loadingView := by
  decide

/-- Claim C8 (amended): when the detail screen is activated without a name
parameter no fetch is attempted and the state is left untouched, but the
screen stays in the loading view (there is no idle state; `loading` starts
true and is never cleared), not in an idle or error view. -/
theorem c8_missing_param (pokemonResp : Except String Pokemon)
    (speciesResp : Except String PokemonSpecies) :
    mountDetails none pokemonResp speciesResp initialDetailState =
      (initialDetailState, 0) ∧
    renderDetails initialDetailState = DetailsScreenView.loadingView := by
  exact ⟨rfl, rfl⟩

/-- Claim C9: when the main detail request succeeds and the species request
fails, fetchDetails stores the error, leaves the species record as it was
(null stays null), keeps the freshly stored main record instead of rolling
the state back to its pre-call value, and - like on every other outcome -
stops the loading indicator. -/
theorem c9_detail_loader_non_atomicity (pk : Pokemon) (msg : String)
    (s : DetailScreenState) (pokemonResp : Except String Pokemon)
    (speciesResp : Except String PokemonSpecies) :
    fetchDetails (Except.ok pk) (Except.error msg) s =
      { pokemon := some pk, species := s.species, loading := false,
        error := some msg } ∧
    (s.pokemon = none →
      (fetchDetails (Except.ok pk) (Except.error msg) s).pokemon ≠
        s.pokemon) ∧
    (fetchDetails pokemonResp speciesResp s).loading = false := by
  refine ⟨rfl, ?_, ?_⟩
  · intro h
    simp [fetchDetails, h]
  · cases pokemonResp <;> cases speciesResp <;> rfl

/-- A concrete full detail record for witnesses. -/
def c9exPokemon : Pokemon :=
  { id := 1, name := "bulbasaur", height := 7, weight := 69,
    base_experience := 64,
    types := [{ slot := 1, type := { name := "grass", url := "u" } }],
    stats := [{ base_stat := 45, effort := 0,
                stat := { name := "hp", url := "u" } }],
    abilities := [{ ability := { name := "overgrow", url := "u" },
                    is_hidden := false, slot := 1 }],
    sprites := c6exSpritesBasic, location_area_encounters := "u" }

/-- Claim C9 witness: from the fresh state, a successful main fetch
followed by a failed species fetch leaves the main record stored. -/
theorem c9_detail_loader_non_atomicity_witness :
    (fetchDetails (Except.ok c9exPokemon) (Except.error "boom")
      initialDetailState).pokemon ≠ initialDetailState.pokemon :=
  (c9_detail_loader_non_atomicity c9exPokemon "boom" initialDetailState
    (Except.ok c9exPokemon) (Except.error "boom")).2.1 rfl

/-! ## Collection fetch (part_001 lines 444-472, part_002 lines 844-872,
index.tsx lines 41-63) -/

/-- A single failure surfaced by a fetch pipeline: `network` stands for a
rejected request, a thrown status check, or an unusable JSON shape.
`stalled` marks a batch whose completion order never delivers some slot;
it is unreachable when the completion order covers every request. -/
inductive FetchError
  | network (msg : String)
  | stalled
deriving DecidableEq

/-- Concurrent settlement of the detail tasks: `sched` lists task indices
in the order their responses arrive; each arrival stores its value into
the slot at its original index (the array cell `Promise.all` assigns by
position), and a rejection settles the whole batch with that error. -/
def runSched {α : Type} (tasks : List (Except FetchError α)) :
    List Nat → List (Option α) → Except FetchError (List (Option α))
  | [], slots => Except.ok slots
  | i :: rest, slots =>
    match tasks[i]? with
    | none => runSched tasks rest slots
    | some (Except.error e) => Except.error e
    | some (Except.ok v) => runSched tasks rest (slots.set i (some v))

/-- Read off the fully settled slots; `none` when some slot never
resolved. -/
def collectSlots {α : Type} : List (Option α) → Option (List α)
  | [] => some []
  | none :: _ => none
  | some v :: rest => (collectSlots rest).map (fun l => v :: l)

/-- `Promise.all` over the detail tasks, evaluated under an explicit
completion order. -/
def promiseAll {α : Type} (tasks : List (Except FetchError α))
    (sched : List Nat) : Except FetchError (List α) :=
  match runSched tasks sched (List.replicate tasks.length none) with
  | Except.error e => Except.error e
  | Except.ok slots =>
    match collectSlots slots with
    | some vs => Except.ok vs
    | none => Except.error FetchError.stalled

/-- `fetchPokemons` (part_001, part_002): fetch the reference list, then
fetch and map every referenced detail concurrently; the list response and
the per-url detail responses are supplied explicitly, and `sched` is the
order in which the concurrent detail requests complete. -/
def fetchPokemons (listResp : Except FetchError (List EntityReference))
    (detailResp : String → Except FetchError PokemonDetail)
    (sched : List Nat) : Except FetchError (List EntitySummary) :=
  match listResp with
  | Except.error e => Except.error e
  | Except.ok refs =>
      promiseAll (refs.map (fun r => (detailResp r.url).map mapDetail)) sched

/-- The list screen state: the collection hook, the loading hook and the
current page hook of part_001 / part_002. -/
structure ListScreenState where
  allPokemons : List EntitySummary
  loading : Bool
  currentPage : Int
deriving DecidableEq

/-- The state right after the list screen mounts. -/
def initialListState : ListScreenState :=
  { allPokemons := [], loading := true, currentPage := 1 }

/-- The state update at the end of fetchPokemons: on success store the
mapped collection and stop loading; on any failure the catch block only
logs and stops loading, leaving the collection untouched. -/
def applyFetchResult (s : ListScreenState) :
    Except FetchError (List EntitySummary) → ListScreenState
  | Except.ok vs => { s with allPokemons := vs, loading := false }
  | Except.error _ => { s with loading := false }

lemma runSched_map_ok_get {α : Type} (vals : List α) (sched : List Nat) :
    ∀ slots : List (Option α), slots.length = vals.length →
    ∃ out, runSched (vals.map Except.ok) sched slots = Except.ok out ∧
      out.length = vals.length ∧
      ∀ i : Nat, out[i]? =
        if i ∈ sched ∧ i < vals.length then some vals[i]? else slots[i]? := by
  induction sched with
  | nil =>
    intro slots hlen
    refine ⟨slots, rfl, hlen, fun i => ?_⟩
    simp
  | cons j rest ih =>
    intro slots hlen
    cases hj : vals[j]? with
    | none =>
      have hjlen : vals.length ≤ j := by
        by_contra hlt
        push_neg at hlt
        rcases List.getElem?_eq_some.mpr ⟨hlt, rfl⟩ with h
        rw [hj] at h
        exact Option.noConfusion h
      have htask : ((vals.map Except.ok :
          List (Except FetchError α)))[j]? = none := by
        rw [List.getElem?_map, hj]
        rfl
      obtain ⟨out, hrun, hol, hget⟩ := ih slots hlen
      refine ⟨out, ?_, hol, fun i => ?_⟩
      · simp only [runSched, htask]
        exact hrun
      · rw [hget i]
        by_cases hi : i ∈ rest ∧ i < vals.length
        · simp [hi.1, hi.2, List.mem_cons]
        · have hcond : ¬ (i ∈ j :: rest ∧ i < vals.length) := by
            rintro ⟨hmem, hlt⟩
            rcases List.mem_cons.mp hmem with rfl | hmem
            · omega
            · exact hi ⟨hmem, hlt⟩
          rw [if_neg hi, if_neg hcond]
    | some v =>
      have hjlt : j < vals.length := by
        rcases List.getElem?_eq_some.mp hj with ⟨h, _⟩
        exact h
      have htask : ((vals.map Except.ok :
          List (Except FetchError α)))[j]? = some (Except.ok v) := by
        rw [List.getElem?_map, hj]
        rfl
      obtain ⟨out, hrun, hol, hget⟩ :=
        ih (slots.set j (some v)) (by rw [List.length_set]; exact hlen)
      refine ⟨out, ?_, hol, fun i => ?_⟩
      · simp only [runSched, htask]
        exact hrun
      · rw [hget i]
        by_cases hi : i ∈ rest ∧ i < vals.length
        · simp [hi.1, hi.2, List.mem_cons]
        · by_cases hij : i = j
          · subst hij
            have h1 : (slots.set i (some v))[i]? = some (some v) :=
              List.getElem?_set_eq_of_lt (some v) (by omega)
            have h2 : vals[i]? = some v := hj
            rw [if_neg hi, h1, if_pos ⟨List.mem_cons_self i rest, hjlt⟩, h2]
          · have hcond : ¬ (i ∈ j :: rest ∧ i < vals.length) := by
              rintro ⟨hmem, hlt⟩
              rcases List.mem_cons.mp hmem with rfl | hmem
              · exact hij rfl
              · exact hi ⟨hmem, hlt⟩
            rw [if_neg hi, if_neg hcond, List.getElem?_set_ne (Ne.symm hij)]

lemma collectSlots_map_some {α : Type} (vals : List α) :
    collectSlots (vals.map some) = some vals := by
  induction vals with
  | nil => rfl
  | cons v rest ih => simp [collectSlots, ih]

lemma promiseAll_map_ok {α : Type} (vals : List α) (sched : List Nat)
    (hcov : ∀ i : Nat, i < vals.length → i ∈ sched) :
    promiseAll (vals.map Except.ok) sched = Except.ok vals := by
  obtain ⟨out, hrun, hlen, hget⟩ :=
    runSched_map_ok_get vals sched (List.replicate vals.length none)
      (by rw [List.length_replicate])
  have hout : out = vals.map some := by
    apply List.ext_getElem?
    intro i
    rw [hget i, List.getElem?_map]
    by_cases hi : i < vals.length
    · rw [if_pos ⟨hcov i hi, hi⟩]
      rcases List.getElem?_eq_some.mpr ⟨hi, rfl⟩ with h
      rw [h]
      rfl
    · rw [if_neg (by omega), List.getElem?_replicate, if_neg hi,
        List.getElem?_eq_none (by omega)]
      rfl
  rw [promiseAll, List.length_map, hrun, hout]
  simp [collectSlots_map_some]

lemma runSched_error_slot {α : Type} (tasks : List (Except FetchError α))
    (sched : List Nat) (i : Nat) (e : FetchError)
    (hi : tasks[i]? = some (Except.error e)) :
    ∀ slots : List (Option α),
    (∃ e2, runSched tasks sched slots = Except.error e2) ∨
    (∃ out, runSched tasks sched slots = Except.ok out ∧
      out[i]? = slots[i]?) := by
  induction sched with
  | nil =>
    intro slots
    exact Or.inr ⟨slots, rfl, rfl⟩
  | cons j rest ih =>
    intro slots
    cases hj : tasks[j]? with
    | none =>
      rcases ih slots with h | h
      · exact Or.inl (by simpa only [runSched, hj] using h)
      · exact Or.inr (by simpa only [runSched, hj] using h)
    | some t =>
      cases t with
      | error e2 =>
        refine Or.inl ⟨e2, ?_⟩
        simp only [runSched, hj]
      | ok v =>
        have hij : i ≠ j := by
          intro h
          subst h
          rw [hi] at hj
          exact Except.noConfusion (Option.some.inj hj)
        rcases ih (slots.set j (some v)) with h | h
        · exact Or.inl (by simpa only [runSched, hj] using h)
        · rcases h with ⟨out, hrun, hget⟩
          refine Or.inr ⟨out, by simpa only [runSched, hj] using hrun, ?_⟩
          rw [hget, List.getElem?_set_ne (Ne.symm hij)]

lemma collectSlots_slot_none {α : Type} (slots : List (Option α)) :
    ∀ i : Nat, slots[i]? = some none → collectSlots slots = none := by
  induction slots with
  | nil =>
    intro i h
    simp at h
  | cons o rest ih =>
    intro i h
    cases i with
    | zero =>
      simp at h
      rw [h]
      rfl
    | succ k =>
      cases o with
      | none => rfl
      | some v =>
        simp only [List.getElem?_cons_succ] at h
        simp [collectSlots, ih k h]

/-- Claim C1: for every list of references and every completion order of
the concurrent detail fetches (any permutation of the request indices),
when every detail fetch succeeds fetchPokemons returns the mapped
summaries in original reference order, reassembled by original index and
independent of completion order. -/
theorem c1_order_preservation (refs : List EntityReference)
    (detailOf : String → PokemonDetail) (sched : List Nat)
    (hperm : sched.Perm (List.range refs.length)) :
    fetchPokemons (Except.ok refs) (fun u => Except.ok (detailOf u)) sched =
      Except.ok (refs.map (fun r => mapDetail (detailOf r.url))) := by
  have hcov : ∀ i : Nat, i < (refs.map (fun r => mapDetail (detailOf r.url))).length →
      i ∈ sched := by
    intro i hi
    rw [List.length_map] at hi
    exact hperm.mem_iff.mpr (List.mem_range.mpr hi)
  have hmap : (List.map (fun r => Except.map mapDetail
      (Except.ok (detailOf r.url) : Except FetchError PokemonDetail)) refs) =
      (refs.map (fun r => mapDetail (detailOf r.url))).map Except.ok := by
    rw [List.map_map]
    rfl
  simp only [fetchPokemons]
  rw [hmap]
  exact promiseAll_map_ok _ sched hcov

/-- Two concrete references and a concrete detail used to instantiate the
fetch theorems. -/
def c1exRefs : List EntityReference :=
  [{ name := "bulbasaur", url := "u1" }, { name := "ivysaur", url := "u2" }]

/-- Claim C1 witness: with two references and the completion order
reversed (the second detail resolves first), the collection still follows
the reference order. -/
theorem c1_order_preservation_witness :
    fetchPokemons (Except.ok c1exRefs)
      (fun u => Except.ok (c6exDetailBasic)) [1, 0] =
      Except.ok (c1exRefs.map (fun r => mapDetail c6exDetailBasic)) :=
  c1_order_preservation c1exRefs (fun u => c6exDetailBasic) [1, 0] (by decide)

/-- Claim C2: for a nonempty reference list, when any one detail request
fails, fetchPokemons surfaces a single error for every completion order,
and applying the result to the freshly mounted list screen leaves the
collection empty (no partial collection) with the loading flag stopped. -/
theorem c2_all_or_nothing (refs : List EntityReference)
    (detailResp : String → Except FetchError PokemonDetail)
    (sched : List Nat) (r : EntityReference) (e : FetchError)
    (hr : r ∈ refs) (hfail : detailResp r.url = Except.error e) :
    (∃ e2, fetchPokemons (Except.ok refs) detailResp sched =
      Except.error e2) ∧
    (applyFetchResult initialListState
      (fetchPokemons (Except.ok refs) detailResp sched)).allPokemons = [] ∧
    (applyFetchResult initialListState
      (fetchPokemons (Except.ok refs) detailResp sched)).loading = false := by
  obtain ⟨i, hi⟩ := List.mem_iff_getElem?.mp hr
  have hilt : i < refs.length := by
    rcases List.getElem?_eq_some.mp hi with ⟨h, _⟩
    exact h
  have htask : (refs.map (fun r => (detailResp r.url).map mapDetail))[i]? =
      some (Except.error e) := by
    rw [List.getElem?_map, hi]
    simp [hfail, Except.map]
  have herr : ∃ e2, fetchPokemons (Except.ok refs) detailResp sched =
      Except.error e2 := by
    rw [fetchPokemons]
    rcases runSched_error_slot _ sched i e htask
        (List.replicate (refs.map
          (fun r => (detailResp r.url).map mapDetail)).length none)
      with ⟨e2, hrun⟩ | ⟨out, hrun, hget⟩
    · exact ⟨e2, by rw [promiseAll, hrun]⟩
    · refine ⟨FetchError.stalled, ?_⟩
      rw [promiseAll, hrun]
      have hnone : out[i]? = some none := by
        rw [hget, List.getElem?_replicate,
          if_pos (by rw [List.length_map]; exact hilt)]
      simp [collectSlots_slot_none out i hnone]
  refine ⟨herr, ?_, ?_⟩ <;>
    · rcases herr with ⟨e2, heq⟩
      rw [heq]
      rfl

/-- Claim C2 witness: one reference whose detail request fails leaves the
mounted list screen with an empty collection and a surfaced error. -/
theorem c2_all_or_nothing_witness :
    (∃ e2, fetchPokemons (Except.ok [{ name := "bulbasaur", url := "u1" }])
      (fun _ => Except.error (FetchError.network "boom")) [0] =
      Except.error e2) ∧
    (applyFetchResult initialListState
      (fetchPokemons (Except.ok [{ name := "bulbasaur", url := "u1" }])
        (fun _ => Except.error (FetchError.network "boom")) [0])).allPokemons
      = [] ∧
    (applyFetchResult initialListState
      (fetchPokemons (Except.ok [{ name := "bulbasaur", url := "u1" }])
        (fun _ => Except.error (FetchError.network "boom")) [0])).loading
      = false :=
  c2_all_or_nothing [{ name := "bulbasaur", url := "u1" }]
    (fun _ => Except.error (FetchError.network "boom")) [0]
    { name := "bulbasaur", url := "u1" } (FetchError.network "boom")
    (List.mem_singleton.mpr rfl) rfl
